import Mathlib

/-!
Verification development for the `httpmon` HTTP exporter
(`http_exporter/http_exporter.go`).

The Go source is shallowly embedded below.  Timestamps (Go `time.Time`,
monotonic clock) are modelled as `Int` nanosecond values; Go `time.Duration`
(an `int64` of nanoseconds) is also an `Int`, with the saturating behaviour of
`time.Time.Sub` made explicit.  External collaborators (the Go standard
library's `http.NewRequest` / `client.Do`, and Prometheus's
`NewConstMetric` error result) are modelled as explicit inputs, so that the
repository's own control flow on every one of their outcomes is captured.
-/

namespace Httpmon

/-- Go `int64` saturation bounds used by `time.Time.Sub`. -/
def int64max : Int := 9223372036854775807

def int64min : Int := -9223372036854775808

/-- Go `time.Time.Sub`: the difference of two timestamps as a `time.Duration`,
saturating at the `int64` bounds. -/
def timeSub (a b : Int) : Int := max int64min (min int64max (a - b))

/-- Go `int64` wrap-around, for arithmetic on `time.Duration` values. -/
def int64wrap (x : Int) : Int :=
  (x + 9223372036854775808) % 18446744073709551616 - 9223372036854775808

/-- A leaf TLS certificate (contents irrelevant to every claim). -/
abbrev Cert := Nat

/-- The `stats` struct: one checkpoint timestamp per lifecycle hook, plus the
captured end-entity certificate. -/
structure stats where
  tlsCert : Option Cert
  Start : Int
  DNSStart : Int
  DNSDone : Int
  ConnectStart : Int
  ConnectDone : Int
  TLSHandshakeStart : Int
  TLSHandshakeDone : Int
  GotConn : Int
  GotFirstResponseByte : Int
  Finish : Int
deriving DecidableEq

/-- `func (s *stats) dnsLookup() time.Duration \x7b return s.DNSDone.Sub(s.DNSStart) \x7d` -/
def stats.dnsLookup (s : stats) : Int := timeSub s.DNSDone s.DNSStart

/-- `func (s *stats) tcpConnection() time.Duration` -/
def stats.tcpConnection (s : stats) : Int := timeSub s.ConnectDone s.ConnectStart

/-- `func (s *stats) tlsHandshake() time.Duration` -/
def stats.tlsHandshake (s : stats) : Int := timeSub s.TLSHandshakeDone s.TLSHandshakeStart

/-- `func (s *stats) serverProcessing() time.Duration` -/
def stats.serverProcessing (s : stats) : Int := timeSub s.GotFirstResponseByte s.GotConn

/-- `func (s *stats) contentTransfer() time.Duration` -/
def stats.contentTransfer (s : stats) : Int := timeSub s.Finish s.GotFirstResponseByte

/-- `func (s *stats) ttfb() time.Duration` -/
def stats.ttfb (s : stats) : Int := timeSub s.GotFirstResponseByte s.Start

/-- A Prometheus metric descriptor (`prometheus.NewDesc` arguments that the
code uses: fully-qualified name, help text, variable label names). -/
structure Desc where
  name : String
  help : String
  labelNames : List String
deriving DecidableEq

/-- The `httpStatsCollector` struct. -/
structure httpStatsCollector where
  url : String
  timeout : Int
  dnsLookup : Desc
  tcpConnection : Desc
  tlsHandshake : Desc
  serverProcessing : Desc
  contentTransfer : Desc
  ttfb : Desc
deriving DecidableEq

/-- `newHTTPStatsCollector` (lines 124-166): the six descriptors, transcribed
verbatim from the source. -/
def newHTTPStatsCollector (url : String) (timeout : Int) : httpStatsCollector :=
  { url := url
    timeout := timeout
    dnsLookup :=
      { name := "dns_lookup_time"
        help := "A gauge of the DNS lookup durations(ms)"
        labelNames := ["status_code"] }
    tcpConnection :=
      { name := "tcp_handshake_time"
        help := "A gauge of the TCP handshake duration(ms)"
        labelNames := ["status_code"] }
    tlsHandshake :=
      { name := "tls_handshake_time"
        help := "A gauge of the TLS handshake duration(ms)"
        labelNames := ["status_code"] }
    serverProcessing :=
      { name := "server_processing_time"
        help := "A gauge of the server processing duration(ms)"
        labelNames := ["status_code"] }
    contentTransfer :=
      { name := "content_transfer_time"
        help := "A gauge of the content transfer duration(ms)"
        labelNames := ["status_code"] }
    ttfb :=
      { name := "ttfb"
        help := "A gauge of the content transfer duration(ms)"
        labelNames := ["status_code"] } }

/-- `Timeout: time.Duration(c.timeout) * time.Second` (line 111): the
`http.Client` timeout in nanoseconds, with `int64` wrap-around of the
Go multiplication. -/
def clientTimeoutNs (timeout : Int) : Int := int64wrap (timeout * 1000000000)

/-- `func ns2ms(d time.Duration) float64 \x7b return float64(d) / float64(time.Millisecond) \x7d`
(`time.Millisecond` = 1,000,000 ns); the floating-point division is modelled
as exact rational division. -/
def ns2ms (d : Int) : ℚ := (d : ℚ) / 1000000

/-- An HTTP response as far as the code observes it: its status code, and
whether its body handle has been closed. A fresh response from `client.Do`
has an open body. -/
structure Response where
  statusCode : Int
  bodyClosed : Bool
deriving DecidableEq

/-- The environment of one `visit` invocation: the outcomes of the two
external standard-library calls the code makes.
`newRequestErr` is the error result of `http.NewRequest("GET", c.url, nil)` —
`true` exactly when the target URL is not parseable (for example the URL
`":"`, rejected with `missing protocol scheme`; note the empty string parses
successfully and fails only later, inside `client.Do`).
`doResult` is the outcome of `client.Do(req)`: a transport error, or the
status code of a response whose body is open. -/
structure World where
  newRequestErr : Bool
  doResult : Except String Int

/-- The possible outcomes of `visit` (lines 69-122):
`fatal` is the `log.Fatalf` path, which aborts the entire process;
otherwise `visit` returns `(stats, *http.Response, error)`, i.e. a failure
with an error, or a success carrying the response. -/
inductive VisitOutcome
  | fatal
  | failure (s : stats) (err : String)
  | success (s : stats) (resp : Response)
deriving DecidableEq

/-- `visit` (lines 69-122). `traceStats` is the `stats` value populated by
the lifecycle callbacks during the request. On a `NewRequest` error the code
executes `log.Fatalf("Request generation error: ...")` (line 103), aborting
the process. On a `client.Do` error it returns `(s, resp, err)`; on success
`(s, resp, nil)`. `visit` itself never closes the response body. -/
def visit (w : World) (traceStats : stats) : VisitOutcome :=
  if w.newRequestErr then .fatal
  else
    match w.doResult with
    | .error e => .failure traceStats e
    | .ok code => .success traceStats { statusCode := code, bodyClosed := false }

/-- A metric sample as emitted on the Prometheus channel:
descriptor name, label pairs, value type, and value. -/
structure Metric where
  name : String
  labels : List (String × String)
  vtype : String
  value : ℚ
deriving DecidableEq

/-- `prometheus.NewConstMetric(desc, prometheus.GaugeValue, v, labelValues...)`.
Its error result is modelled by the explicit `fails` input: the real
constructor errors only on a label-arity/descriptor invariant violation
(unreachable for the fixed descriptors above), and the claims are about the
code's handling of that error result. On success it pairs the descriptor's
label names with the supplied label values. -/
def NewConstMetric (fails : Bool) (desc : Desc) (v : ℚ) (labelValues : List String) :
    Option Metric :=
  if fails then none
  else some { name := desc.name, labels := desc.labelNames.zip labelValues,
              vtype := "gauge", value := v }

/-- Lines 185-200: the status-class label, computed by five sequential
(non-`else`) `if` statements reassigning a variable initialised to
`"unknown"`. -/
def statusCodeLabel (c : Int) : String :=
  let statusCode := "unknown"
  let statusCode := if 100 ≤ c ∧ c ≤ 199 then "1xx" else statusCode
  let statusCode := if 200 ≤ c ∧ c ≤ 299 then "2xx" else statusCode
  let statusCode := if 300 ≤ c ∧ c ≤ 399 then "3xx" else statusCode
  let statusCode := if 400 ≤ c ∧ c ≤ 499 then "4xx" else statusCode
  let statusCode := if 500 ≤ c ∧ c ≤ 599 then "5xx" else statusCode
  statusCode

/-- Lines 202-273 of `Collect`: the six sequential metric constructions and
channel sends. `f i` is the error result of the `i`-th `NewConstMetric`
call. Each construction error executes `log.Printf(...); return`, so the
samples already sent stay sent and no later construction is attempted. -/
def CollectSamples (c : httpStatsCollector) (s : stats) (code : Int)
    (f : Nat → Bool) : List Metric :=
  let statusCode := statusCodeLabel code
  match NewConstMetric (f 0) c.dnsLookup (ns2ms s.dnsLookup) [statusCode] with
  | none => []
  | some dnsLookupMetric =>
  match NewConstMetric (f 1) c.tcpConnection (ns2ms s.tcpConnection) [statusCode] with
  | none => [dnsLookupMetric]
  | some tcpConnectionMetric =>
  match NewConstMetric (f 2) c.tlsHandshake (ns2ms s.tlsHandshake) [statusCode] with
  | none => [dnsLookupMetric, tcpConnectionMetric]
  | some tlsHandshakeMetric =>
  match NewConstMetric (f 3) c.serverProcessing (ns2ms s.serverProcessing) [statusCode] with
  | none => [dnsLookupMetric, tcpConnectionMetric, tlsHandshakeMetric]
  | some serverProcessingMetric =>
  match NewConstMetric (f 4) c.contentTransfer (ns2ms s.contentTransfer) [statusCode] with
  | none => [dnsLookupMetric, tcpConnectionMetric, tlsHandshakeMetric,
             serverProcessingMetric]
  | some contentTransferMetric =>
  match NewConstMetric (f 5) c.ttfb (ns2ms s.ttfb) [statusCode] with
  | none => [dnsLookupMetric, tcpConnectionMetric, tlsHandshakeMetric,
             serverProcessingMetric, contentTransferMetric]
  | some ttfbMetric =>
    [dnsLookupMetric, tcpConnectionMetric, tlsHandshakeMetric,
     serverProcessingMetric, contentTransferMetric, ttfbMetric]

/-- `Collect` (lines 177-273), given the outcome of `c.visit()`: `none`
models the process having been aborted by `log.Fatalf` inside `visit`;
otherwise the result is the list of samples sent, paired with the final
state of the response body. On a visit error the code logs and returns with
zero samples (there is no response). On success, `defer resp.Body.Close()`
(line 183) guarantees the body is closed when `Collect` returns, on every
path through the metric constructions. -/
def collectRun (c : httpStatsCollector) (o : VisitOutcome) (f : Nat → Bool) :
    Option (List Metric × Option Response) :=
  match o with
  | .fatal => none
  | .failure _ _ => some ([], none)
  | .success s r =>
      some (CollectSamples c s r.statusCode f, some { r with bodyClosed := true })

/-- `Collect` end to end: run `visit` in the given environment, then the
body of `Collect`. -/
def Collect (c : httpStatsCollector) (w : World) (traceStats : stats)
    (f : Nat → Bool) : Option (List Metric × Option Response) :=
  collectRun c (visit w traceStats) f

/-- The `TLSHandshakeDone` callback either records (the certificate capture
and the timestamp), or panics. -/
inductive CallbackOutcome
  | panicked
  | recorded (tlsCert : Option Cert)
deriving DecidableEq

/-- The `TLSHandshakeDone` lifecycle callback (lines 87-92): when the
handshake error is nil it unconditionally evaluates
`cs.PeerCertificates[0]`, a Go slice index that panics with
`index out of range` on an empty slice; otherwise it only records the
timestamp. -/
def tlsHandshakeDoneHook (peerCertificates : List Cert) (handshakeErr : Option String) :
    CallbackOutcome :=
  match handshakeErr with
  | some _ => .recorded none
  | none =>
    match peerCertificates with
    | [] => .panicked
    | c :: _ => .recorded (some c)

/-- The result of `prometheusReqsHandler` (lines 279-302): either the
400 `Target param is missing` response, or a scrape by a collector built
with `newHTTPStatsCollector(targetURL, timeout)`. -/
inductive HandlerResult
  | badRequest
  | scrape (collector : httpStatsCollector)
deriving DecidableEq

/-- Lines 287-293 of `prometheusReqsHandler`. The outer `timeout` is
initialised to `10`. Inside the `if` block, the short variable declaration
`timeout, err := strconv.Atoi(params.Get("timeout"))` declares NEW variables
scoped to that block (Go block scoping), shadowing the outer `timeout`; the
parsed value (`atoiResult`, the outcome of `strconv.Atoi`) is only read by
the `log.Printf` in the error branch and is discarded when the block ends.
The collector is then constructed from the outer `timeout`. -/
def handlerTimeout (timeoutParam : String) (atoiResult : Except String Int) : Int :=
  let timeout : Int := 10
  if timeoutParam ≠ "" then
    let _shadowed : Except String Int := atoiResult
    timeout
  else
    timeout

/-- `prometheusReqsHandler` (lines 279-302), up to the construction of the
collector: a missing `target` parameter is rejected with a 400; otherwise a
fresh collector is built from the target URL and the computed timeout. -/
def prometheusReqsHandler (target timeoutParam : String)
    (atoiResult : Except String Int) : HandlerResult :=
  if target = "" then .badRequest
  else .scrape (newHTTPStatsCollector target (handlerTimeout timeoutParam atoiResult))

/-- The claimed release of the response body at the return of `visit`: on a
success outcome the returned response's body handle is closed (on the other
outcomes there is no response to release). -/
def bodyReleasedAtVisitReturn : VisitOutcome → Prop
  | .success _ r => r.bodyClosed = true
  | _ => True

/-- C4: the status-class label maps 100-199 to "1xx", 200-299 to "2xx",
300-399 to "3xx", 400-499 to "4xx", 500-599 to "5xx", and everything outside
100-599 to "unknown"; in particular 204 ↦ "2xx", 404 ↦ "4xx",
999 ↦ "unknown". -/
theorem statusClass_buckets :
    (∀ c : Int, statusCodeLabel c =
      if 100 ≤ c ∧ c ≤ 199 then "1xx"
      else if 200 ≤ c ∧ c ≤ 299 then "2xx"
      else if 300 ≤ c ∧ c ≤ 399 then "3xx"
      else if 400 ≤ c ∧ c ≤ 499 then "4xx"
      else if 500 ≤ c ∧ c ≤ 599 then "5xx"
      else "unknown")
    ∧ statusCodeLabel 204 = "2xx" ∧ statusCodeLabel 404 = "4xx"
    ∧ statusCodeLabel 999 = "unknown" := by
  refine ⟨fun c => ?_, by rfl, by rfl, by rfl⟩
  simp only [statusCodeLabel]
  split_ifs <;> first | rfl | omega

/-- C5: whenever the checkpoints satisfy the ordering invariant of §3 of the
spec (the successful-probe chain, with the TLS checkpoints ordered between
themselves), every one of the six derived durations is non-negative. -/
theorem derived_durations_nonneg (s : stats)
    (h1 : s.Start ≤ s.DNSStart) (h2 : s.DNSStart ≤ s.DNSDone)
    (h3 : s.DNSDone ≤ s.ConnectStart) (h4 : s.ConnectStart ≤ s.ConnectDone)
    (h5 : s.ConnectDone ≤ s.GotConn) (h6 : s.GotConn ≤ s.GotFirstResponseByte)
    (h7 : s.GotFirstResponseByte ≤ s.Finish)
    (h8 : s.TLSHandshakeStart ≤ s.TLSHandshakeDone) :
    0 ≤ s.dnsLookup ∧ 0 ≤ s.tcpConnection ∧ 0 ≤ s.tlsHandshake ∧
      0 ≤ s.serverProcessing ∧ 0 ≤ s.contentTransfer ∧ 0 ≤ s.ttfb := by
  simp only [stats.dnsLookup, stats.tcpConnection, stats.tlsHandshake,
    stats.serverProcessing, stats.contentTransfer, stats.ttfb, timeSub,
    int64max, int64min]
  omega

theorem derived_durations_nonneg_witness :
    0 ≤ (⟨none, 0, 1, 2, 3, 4, 4, 5, 5, 6, 7⟩ : stats).dnsLookup ∧
      0 ≤ (⟨none, 0, 1, 2, 3, 4, 4, 5, 5, 6, 7⟩ : stats).tcpConnection ∧
      0 ≤ (⟨none, 0, 1, 2, 3, 4, 4, 5, 5, 6, 7⟩ : stats).tlsHandshake ∧
      0 ≤ (⟨none, 0, 1, 2, 3, 4, 4, 5, 5, 6, 7⟩ : stats).serverProcessing ∧
      0 ≤ (⟨none, 0, 1, 2, 3, 4, 4, 5, 5, 6, 7⟩ : stats).contentTransfer ∧
      0 ≤ (⟨none, 0, 1, 2, 3, 4, 4, 5, 5, 6, 7⟩ : stats).ttfb :=
  derived_durations_nonneg ⟨none, 0, 1, 2, 3, 4, 4, 5, 5, 6, 7⟩
    (by decide) (by decide) (by decide) (by decide) (by decide) (by decide)
    (by decide) (by decide)

/-- C10: in the `TLSHandshakeDone` callback with a nil handshake error, an
empty `PeerCertificates` slice makes the unguarded index
`cs.PeerCertificates[0]` panic, while a non-empty slice records the first
(end-entity) certificate. -/
theorem tls_done_callback_empty_certs_panics :
    tlsHandshakeDoneHook [] none = .panicked ∧
      ∀ (c : Cert) (cs : List Cert),
        tlsHandshakeDoneHook (c :: cs) none = .recorded (some c) :=
  ⟨rfl, fun _ _ => rfl⟩

/-- C9: for every inbound scrape request with a non-empty target, the
collector handed to the probe is built with timeout 10, whatever the
`timeout` query parameter and whatever `strconv.Atoi` returned for it: the
short variable declaration inside the `if` block shadows the outer
`timeout`, so the parsed value is discarded. -/
theorem handler_discards_parsed_timeout (target timeoutParam : String)
    (atoiResult : Except String Int) (h : target ≠ "") :
    prometheusReqsHandler target timeoutParam atoiResult =
      .scrape (newHTTPStatsCollector target 10) := by
  simp [prometheusReqsHandler, handlerTimeout, h]

theorem handler_discards_parsed_timeout_witness :
    prometheusReqsHandler "http://example.com" "3" (.ok 3) =
      .scrape (newHTTPStatsCollector "http://example.com" 10) :=
  handler_discards_parsed_timeout "http://example.com" "3" (.ok 3) (by decide)

/-- C6 counterexample: with `timeoutSeconds = 0` the probe's client timeout
is 0 nanoseconds (Go: no timeout at all), not the claimed 10-second
default. -/
theorem timeout_fallback_cex : clientTimeoutNs 0 ≠ 10 * 1000000000 := by decide

/-- C6 amended: for zero or negative `timeoutSeconds` (within the range
where the `int64` multiplication does not wrap), the probe uses
`timeoutSeconds` seconds verbatim as the client timeout — zero meaning
unbounded — and never the 10-second default; that default exists only in
the request handler's initialisation. -/
theorem timeout_passthrough (t : Int) (hlo : -9223372036 ≤ t) (hhi : t ≤ 0) :
    clientTimeoutNs t = t * 1000000000 ∧ clientTimeoutNs t ≠ 10 * 1000000000 := by
  have heq : clientTimeoutNs t = t * 1000000000 := by
    simp only [clientTimeoutNs, int64wrap]
    omega
  refine ⟨heq, ?_⟩
  rw [heq]
  omega

theorem timeout_passthrough_witness :
    clientTimeoutNs 0 = 0 * 1000000000 ∧ clientTimeoutNs 0 ≠ 10 * 1000000000 :=
  timeout_passthrough 0 (by decide) (by decide)

/-- C1: evaluating `visit` in an environment where `http.NewRequest` rejects
the target URL (for example the unparsable URL `":"`): the code runs
`log.Fatalf`, aborting the whole process, instead of returning a failure
outcome for that invocation only. -/
theorem visit_invalid_url_aborts_process :
    visit { newRequestErr := true, doResult := .error "unused" }
        ⟨none, 0, 0, 0, 0, 0, 0, 0, 0, 0, 0⟩ = .fatal := rfl

/-- C3: on every failure outcome of `visit`, `Collect` emits exactly zero
samples and still returns normally (the scrape completes; the process is
not aborted). -/
theorem collect_failure_yields_zero_samples (c : httpStatsCollector) (s : stats)
    (e : String) (f : Nat → Bool) :
    collectRun c (.failure s e) f = some ([], none) := rfl

/-- C2: on every success outcome, with none of the metric constructions
erroring (the reachable case for the fixed descriptors), `Collect` emits
exactly six gauge samples — `dns_lookup_time`, `tcp_handshake_time`,
`tls_handshake_time`, `server_processing_time`, `content_transfer_time`,
`ttfb`, in that order — each carrying the single label
`status_code = <status class of the response code>` and each valued at the
corresponding derived duration divided by 1,000,000 (nanoseconds to
milliseconds). -/
theorem collect_success_six_gauges (url : String) (timeout : Int) (s : stats)
    (code : Int) :
    CollectSamples (newHTTPStatsCollector url timeout) s code (fun _ => false) =
      [ { name := "dns_lookup_time",
          labels := [("status_code", statusCodeLabel code)],
          vtype := "gauge", value := (s.dnsLookup : ℚ) / 1000000 },
        { name := "tcp_handshake_time",
          labels := [("status_code", statusCodeLabel code)],
          vtype := "gauge", value := (s.tcpConnection : ℚ) / 1000000 },
        { name := "tls_handshake_time",
          labels := [("status_code", statusCodeLabel code)],
          vtype := "gauge", value := (s.tlsHandshake : ℚ) / 1000000 },
        { name := "server_processing_time",
          labels := [("status_code", statusCodeLabel code)],
          vtype := "gauge", value := (s.serverProcessing : ℚ) / 1000000 },
        { name := "content_transfer_time",
          labels := [("status_code", statusCodeLabel code)],
          vtype := "gauge", value := (s.contentTransfer : ℚ) / 1000000 },
        { name := "ttfb",
          labels := [("status_code", statusCodeLabel code)],
          vtype := "gauge", value := (s.ttfb : ℚ) / 1000000 } ] := rfl

/-- C7 counterexample: when the very first metric construction
(`dns_lookup_time`) errors, `Collect` returns immediately and emits NO
samples at all — the remaining five metrics are not emitted, contradicting
the claim that only the failing metric's emission is aborted. -/
theorem collect_metric_error_cex :
    CollectSamples (newHTTPStatsCollector "http://example.com" 10)
        ⟨none, 0, 0, 0, 0, 0, 0, 0, 0, 0, 0⟩ 200 (fun j => decide (j = 0)) = [] :=
  rfl

/-- C7 amended: when the `i`-th metric construction errors (and the earlier
ones do not), `Collect` logs and returns at that point: exactly the `i`
samples already constructed are emitted, and the failing metric and every
later metric are skipped. -/
theorem collect_metric_error_aborts_scrape (url : String) (timeout : Int)
    (s : stats) (code : Int) (f : Nat → Bool) (i : Nat) (hi6 : i < 6)
    (hi : f i = true) (hj : ∀ j, j < i → f j = false) :
    (CollectSamples (newHTTPStatsCollector url timeout) s code f).length = i := by
  interval_cases i
  · simp [CollectSamples, NewConstMetric, hi]
  · have f0 := hj 0 (by omega)
    simp [CollectSamples, NewConstMetric, hi, f0]
  · have f0 := hj 0 (by omega); have f1 := hj 1 (by omega)
    simp [CollectSamples, NewConstMetric, hi, f0, f1]
  · have f0 := hj 0 (by omega); have f1 := hj 1 (by omega)
    have f2 := hj 2 (by omega)
    simp [CollectSamples, NewConstMetric, hi, f0, f1, f2]
  · have f0 := hj 0 (by omega); have f1 := hj 1 (by omega)
    have f2 := hj 2 (by omega); have f3 := hj 3 (by omega)
    simp [CollectSamples, NewConstMetric, hi, f0, f1, f2, f3]
  · have f0 := hj 0 (by omega); have f1 := hj 1 (by omega)
    have f2 := hj 2 (by omega); have f3 := hj 3 (by omega)
    have f4 := hj 4 (by omega)
    simp [CollectSamples, NewConstMetric, hi, f0, f1, f2, f3, f4]

theorem collect_metric_error_aborts_scrape_witness :
    (CollectSamples (newHTTPStatsCollector "http://example.com" 10)
        ⟨none, 0, 0, 0, 0, 0, 0, 0, 0, 0, 0⟩ 200
        (fun j => decide (j = 2))).length = 2 :=
  collect_metric_error_aborts_scrape "http://example.com" 10
    ⟨none, 0, 0, 0, 0, 0, 0, 0, 0, 0, 0⟩ 200 (fun j => decide (j = 2)) 2
    (by omega) (by decide)
    (by intro j h; interval_cases j <;> rfl)

/-- C8 counterexample: on a successful probe, `visit` returns the response
with its body still OPEN — the body is not released before `visit`
returns. -/
theorem visit_returns_open_body_cex :
    ¬ bodyReleasedAtVisitReturn
        (visit { newRequestErr := false, doResult := .ok 200 }
          ⟨none, 0, 0, 0, 0, 0, 0, 0, 0, 0, 0⟩) := by
  simp [visit, bodyReleasedAtVisitReturn]

/-- C8 amended: it is the caller, `Collect`, that releases the body: on
every success outcome (whatever the metric-construction results), the
deferred `resp.Body.Close()` has run by the time `Collect` returns, so the
final body state is closed. -/
theorem body_closed_when_collect_returns (c : httpStatsCollector) (s : stats)
    (r : Response) (f : Nat → Bool) :
    ∃ ms, collectRun c (.success s r) f =
      some (ms, some { statusCode := r.statusCode, bodyClosed := true }) :=
  ⟨_, rfl⟩

end Httpmon
